import Mathlib

/-!
Verification of the AI grading pipeline in `pylib/anki/ai_client.py` and
`pylib/anki/orchestrator.py` (repository AnishMulay/ainki).

The Python code is shallowly embedded: JSON values (the output of Python
`json.loads`) become the inductive type `Json`; Python operations that can
raise are modelled with `Option`/`Except`; the single blocking HTTP call in
`AIClient.generate_response` is abstracted into an oracle value `NetOutcome`
(either a transport-level exception or a response body string), so that the
rest of the pipeline is a pure function of that oracle.

Python-specific semantics that the source relies on are modelled explicitly:
  * `bool` is a subclass of `int` (`isinstance(True, int)` is true, and
    `True == 1`, `False == 0` for dict lookups);
  * `dict.get` hashes its key first, so an unhashable key (a decoded JSON
    array or object) raises `TypeError`;
  * the truthiness rules used by `x or y`;
  * `int(str)` accepts Unicode decimal digits and Unicode whitespace, and
    `str.strip()` strips Unicode whitespace;
  * dataclass field annotations are not enforced at runtime, so the
    `key_fix` / `memory_tip` fields of `AIEvalResult` can hold non-string
    values and are therefore given type `Json` here;
  * `dict.get` with duplicate JSON keys sees the last occurrence.
-/

/-- A Python value decoded from JSON by `json.loads`.  Floats are kept as
their source lexeme (the code never uses a float numerically, only its
type and its truthiness, both recoverable from the lexeme). -/
inductive Json where
  | null : Json
  | bool (b : Bool) : Json
  | int (n : Int) : Json
  | float (lit : String) : Json
  | str (s : String) : Json
  | arr (elems : List Json) : Json
  | obj (members : List (String × Json)) : Json

/-- Python type name of a decoded JSON value, as used in runtime error
messages. -/
def pyTypeName : Json → String
  | .null => "NoneType"
  | .bool _ => "bool"
  | .int _ => "int"
  | .float _ => "float"
  | .str _ => "str"
  | .arr _ => "list"
  | .obj _ => "dict"

/-- Digit prefix of the input. -/
def takeDigits : List Char → List Char × List Char
  | [] => ([], [])
  | c :: cs =>
    if c.isDigit then
      let r := takeDigits cs
      (c :: r.1, r.2)
    else ([], c :: cs)

/-- Digit list to `Nat`. -/
def digitsToNat (acc : Nat) : List Char → Nat
  | [] => acc
  | c :: cs => digitsToNat (acc * 10 + (c.toNat - 48)) cs

/-- Zero test for a float lexeme, following the IEEE-754 double rounding
Python `float()` performs: the literal is falsy exactly when it rounds to
0.0, i.e. its mantissa digits are all zero or its magnitude is at most
2^-1075 (the halfway point between 0 and the smallest subnormal rounds to
the even candidate 0).  NaN and the infinities are truthy. -/
def floatLitIsZero (lit : String) : Bool :=
  match lit.data with
  | 'N' :: _ => false
  | 'I' :: _ => false
  | '-' :: 'I' :: _ => false
  | cs0 =>
    let cs :=
      match cs0 with
      | '-' :: r => r
      | r => r
    let ip := takeDigits cs
    let fp :=
      match ip.2 with
      | '.' :: r => takeDigits r
      | r => ([], r)
    let ex : Int :=
      match fp.2 with
      | 'e' :: r =>
        match r with
        | '+' :: r2 => (digitsToNat 0 (takeDigits r2).1 : Int)
        | '-' :: r2 => -(digitsToNat 0 (takeDigits r2).1 : Int)
        | r2 => (digitsToNat 0 (takeDigits r2).1 : Int)
      | 'E' :: r =>
        match r with
        | '+' :: r2 => (digitsToNat 0 (takeDigits r2).1 : Int)
        | '-' :: r2 => -(digitsToNat 0 (takeDigits r2).1 : Int)
        | r2 => (digitsToNat 0 (takeDigits r2).1 : Int)
      | _ => 0
    let m : Nat := digitsToNat 0 (ip.1 ++ fp.1)
    let d : Int := ex - fp.1.length
    if m = 0 then true
    else if 0 ≤ d then false
    else decide (m * 2 ^ 1075 ≤ 10 ^ (-d).toNat)

/-- Python truthiness (`bool(x)`) of a decoded JSON value. -/
def pyTruthy : Json → Bool
  | .null => false
  | .bool b => b
  | .int n => decide (n ≠ 0)
  | .float lit => ! floatLitIsZero lit
  | .str s => decide (s ≠ "")
  | .arr xs => ! xs.isEmpty
  | .obj kvs => ! kvs.isEmpty

/-- `x or y` for JSON values (Python returns `x` when it is truthy,
otherwise `y`). -/
def pyOrJson (a b : Json) : Json := if pyTruthy a then a else b

/-- `d.get(k)` on a decoded JSON object.  Python keeps the last occurrence
of a duplicated key, hence the reversed search. -/
def pyDictGet (kvs : List (String × Json)) (k : String) : Option Json :=
  (kvs.reverse.find? (fun kv => kv.1 == k)).map (fun kv => kv.2)

/-- Truthiness of `self.api_key` (either unset or a string). -/
def pyTruthyOptStr : Option String → Bool
  | none => false
  | some s => decide (s ≠ "")

/-- The whitespace characters of Python `str.isspace()`, stripped by
`str.strip()`: the control whitespace \x09-\x0d and \x1c-\x1f, plus the
Unicode space characters. -/
def pyStrSpace (c : Char) : Bool :=
  let n := c.toNat
  (9 ≤ n && n ≤ 13) || (0x1c ≤ n && n ≤ 0x1f) || n = 0x20 || n = 0x85 ||
    n = 0xa0 || n = 0x1680 || (0x2000 ≤ n && n ≤ 0x200a) || n = 0x2028 ||
    n = 0x2029 || n = 0x202f || n = 0x205f || n = 0x3000

/-- The whitespace Python `int()` accepts around a numeric literal: the
`str.isspace()` set without the separators \x1c-\x1f, which `int()`
rejects. -/
def pyIntSpace (c : Char) : Bool :=
  let n := c.toNat
  (9 ≤ n && n ≤ 13) || n = 0x20 || n = 0x85 || n = 0xa0 || n = 0x1680 ||
    (0x2000 ≤ n && n ≤ 0x200a) || n = 0x2028 || n = 0x2029 || n = 0x202f ||
    n = 0x205f || n = 0x3000

/-- Python `str.strip()` (Unicode whitespace). -/
def pyStrip (s : String) : String :=
  String.mk (((s.data.dropWhile pyStrSpace).reverse.dropWhile pyStrSpace).reverse)

/-- First codepoint of each Unicode Nd block, i.e. each run of ten
consecutive decimal-digit characters (Unicode 14 tables, as shipped with
the Python 3.11 runtime). -/
def ndBases : List Nat :=
  [0x30, 0x660, 0x6f0, 0x7c0, 0x966, 0x9e6, 0xa66, 0xae6, 0xb66, 0xbe6,
   0xc66, 0xce6, 0xd66, 0xde6, 0xe50, 0xed0, 0xf20, 0x1040, 0x1090, 0x17e0,
   0x1810, 0x1946, 0x19d0, 0x1a80, 0x1a90, 0x1b50, 0x1bb0, 0x1c40, 0x1c50,
   0xa620, 0xa8d0, 0xa900, 0xa9d0, 0xa9f0, 0xaa50, 0xabf0, 0xff10, 0x104a0,
   0x10d30, 0x11066, 0x110f0, 0x11136, 0x111d0, 0x112f0, 0x11450, 0x114d0,
   0x11650, 0x116c0, 0x11730, 0x118e0, 0x11950, 0x11c50, 0x11d50, 0x11da0,
   0x16a60, 0x16ac0, 0x16b50, 0x1d7ce, 0x1d7d8, 0x1d7e2, 0x1d7ec, 0x1d7f6,
   0x1e140, 0x1e2f0, 0x1e950, 0x1fbf0]

/-- Decimal value of a character under Python `int()`, which accepts any
Unicode decimal digit (category Nd), not only ASCII. -/
def unicodeDigitVal (c : Char) : Option Nat :=
  match ndBases.find? (fun b => b ≤ c.toNat && c.toNat < b + 10) with
  | some b => some (c.toNat - b)
  | none => none

/-- One step of Python `int(str)` digit scanning: Unicode decimal digits
with single underscores allowed between digits. -/
def pyIntDigits (acc : Nat) : List Char → Option Nat
  | [] => some acc
  | c :: cs =>
    match unicodeDigitVal c with
    | some v => pyIntDigits (acc * 10 + v) cs
    | none =>
      if c = '_' then
        match cs with
        | d :: cs2 =>
          match unicodeDigitVal d with
          | some v => pyIntDigits (acc * 10 + v) cs2
          | none => none
        | [] => none
      else none

/-- Python `int(s)` on a string: optional surrounding whitespace, optional
ASCII sign, Unicode decimal digits with single embedded underscores;
`none` models the `ValueError` raised on any other input. -/
def pyIntOfString (s : String) : Option Int :=
  let cs := (((s.data.dropWhile pyIntSpace).reverse.dropWhile pyIntSpace).reverse)
  let signed : Bool × List Char :=
    match cs with
    | '+' :: r => (false, r)
    | '-' :: r => (true, r)
    | _ => (false, cs)
  match signed.2 with
  | [] => none
  | c :: _ =>
    match unicodeDigitVal c with
    | some _ =>
      match pyIntDigits 0 signed.2 with
      | some n => some (if signed.1 then -(n : Int) else (n : Int))
      | none => none
    | none => none

/-! ### `json.loads`

A fuel-indexed recursive-descent reading of the JSON grammar accepted by
Python `json.loads` (strict mode, plus the `NaN` / `Infinity` extensions
Python enables by default).  The fuel is structural, so concrete inputs
evaluate by `rfl` / `decide`. -/

/-- Skip JSON whitespace. -/
def skipWs : List Char → List Char
  | [] => []
  | c :: cs => if c = ' ' || c = '\t' || c = '\n' || c = '\r' then skipWs cs else c :: cs

/-- Hex digit value. -/
def hexVal (c : Char) : Option Nat :=
  if '0' ≤ c ∧ c ≤ '9' then some (c.toNat - 48)
  else if 'a' ≤ c ∧ c ≤ 'f' then some (c.toNat - 87)
  else if 'A' ≤ c ∧ c ≤ 'F' then some (c.toNat - 55)
  else none

/-- Body of a JSON string literal, after the opening quote: returns the
decoded characters and the remaining input.  Strict mode: raw control
characters are rejected. -/
def jsStrBody (fuel : Nat) (acc : List Char) (cs : List Char) :
    Option (List Char × List Char) :=
  match fuel with
  | 0 => none
  | Nat.succ fuel =>
    match cs with
    | [] => none
    | c :: rest =>
      if c = '\x22' then some (acc.reverse, rest)
      else if c = '\\' then
        match rest with
        | [] => none
        | e :: rest2 =>
          if e = '\x22' then jsStrBody fuel ('\x22' :: acc) rest2
          else if e = '\\' then jsStrBody fuel ('\\' :: acc) rest2
          else if e = '/' then jsStrBody fuel ('/' :: acc) rest2
          else if e = 'b' then jsStrBody fuel ('\x08' :: acc) rest2
          else if e = 'f' then jsStrBody fuel ('\x0c' :: acc) rest2
          else if e = 'n' then jsStrBody fuel ('\n' :: acc) rest2
          else if e = 'r' then jsStrBody fuel ('\r' :: acc) rest2
          else if e = 't' then jsStrBody fuel ('\t' :: acc) rest2
          else if e = 'u' then
            match rest2 with
            | h1 :: h2 :: h3 :: h4 :: rest3 =>
              match hexVal h1, hexVal h2, hexVal h3, hexVal h4 with
              | some a, some b, some c3, some d =>
                jsStrBody fuel (Char.ofNat (a * 4096 + b * 256 + c3 * 16 + d) :: acc) rest3
              | _, _, _, _ => none
            | _ => none
          else none
      else if c.toNat < 32 then none
      else jsStrBody fuel (c :: acc) rest

/-- JSON number literal (grammar of `json.loads`): `-? int frac? exp?`.
A number with a fraction or exponent decodes to a Python float, kept as its
lexeme; otherwise to an arbitrary-precision int. -/
def jsNumber (cs : List Char) : Option (Json × List Char) :=
  let signed : Bool × List Char :=
    match cs with
    | '-' :: r => (true, r)
    | _ => (false, cs)
  match signed.2 with
  | [] => none
  | c :: rest =>
    if ¬ c.isDigit then none
    else
      let intPart : List Char × List Char :=
        if c = '0' then ([c], rest) else takeDigits signed.2
      let fracPart : Option (List Char × List Char) :=
        match intPart.2 with
        | '.' :: r =>
          let d := takeDigits r
          if d.1 = [] then none else some d
        | _ => some ([], intPart.2)
      match fracPart with
      | none => none
      | some fp =>
        let expPart : Option (List Char × List Char) :=
          match fp.2 with
          | 'e' :: r =>
            let signedE : List Char × List Char :=
              match r with
              | '+' :: r2 => (['e', '+'], r2)
              | '-' :: r2 => (['e', '-'], r2)
              | _ => (['e'], r)
            let d := takeDigits signedE.2
            if d.1 = [] then none else some (signedE.1 ++ d.1, d.2)
          | 'E' :: r =>
            let signedE : List Char × List Char :=
              match r with
              | '+' :: r2 => (['E', '+'], r2)
              | '-' :: r2 => (['E', '-'], r2)
              | _ => (['E'], r)
            let d := takeDigits signedE.2
            if d.1 = [] then some ([], fp.2) else some (signedE.1 ++ d.1, d.2)
          | _ => some ([], fp.2)
        match expPart with
        | none => none
        | some ep =>
          if fp.1 = [] ∧ ep.1 = [] then
            some (Json.int (if signed.1 then -(digitsToNat 0 intPart.1 : Int)
                            else (digitsToNat 0 intPart.1 : Int)), intPart.2)
          else
            let lexeme :=
              (if signed.1 then ['-'] else []) ++ intPart.1 ++
              (if fp.1 = [] then [] else '.' :: fp.1) ++ ep.1
            some (Json.float (String.mk lexeme), ep.2)

/-- Parsing mode: a single value, or the tail of an object / array whose
opening bracket has been consumed. -/
inductive PMode where
  | val : PMode
  | objRest (acc : List (String × Json)) : PMode
  | arrRest (acc : List Json) : PMode

/-- Recursive-descent core of `json.loads`, structural in the fuel. -/
def jsCore (fuel : Nat) (mode : PMode) (cs : List Char) :
    Option (Json × List Char) :=
  match fuel with
  | 0 => none
  | Nat.succ fuel =>
    match mode with
    | PMode.val =>
      match skipWs cs with
      | [] => none
      | c :: rest =>
        if c = '\x7b' then
          match skipWs rest with
          | d :: rest2 =>
            if d = '\x7d' then some (Json.obj [], rest2)
            else jsCore fuel (PMode.objRest []) (d :: rest2)
          | [] => none
        else if c = '[' then
          match skipWs rest with
          | d :: rest2 =>
            if d = ']' then some (Json.arr [], rest2)
            else jsCore fuel (PMode.arrRest []) (d :: rest2)
          | [] => none
        else if c = '\x22' then
          match jsStrBody rest.length [] rest with
          | some sr => some (Json.str (String.mk sr.1), sr.2)
          | none => none
        else if c = 't' then
          match rest with
          | 'r' :: 'u' :: 'e' :: r2 => some (Json.bool true, r2)
          | _ => none
        else if c = 'f' then
          match rest with
          | 'a' :: 'l' :: 's' :: 'e' :: r2 => some (Json.bool false, r2)
          | _ => none
        else if c = 'n' then
          match rest with
          | 'u' :: 'l' :: 'l' :: r2 => some (Json.null, r2)
          | _ => none
        else if c = 'N' then
          match rest with
          | 'a' :: 'N' :: r2 => some (Json.float "NaN", r2)
          | _ => none
        else if c = 'I' then
          match rest with
          | 'n' :: 'f' :: 'i' :: 'n' :: 'i' :: 't' :: 'y' :: r2 =>
            some (Json.float "Infinity", r2)
          | _ => none
        else if c = '-' then
          match rest with
          | 'I' :: 'n' :: 'f' :: 'i' :: 'n' :: 'i' :: 't' :: 'y' :: r2 =>
            some (Json.float "-Infinity", r2)
          | _ => jsNumber (c :: rest)
        else if c.isDigit then jsNumber (c :: rest)
        else none
    | PMode.objRest acc =>
      match skipWs cs with
      | c :: rest =>
        if c = '\x22' then
          match jsStrBody rest.length [] rest with
          | some kr =>
            match skipWs kr.2 with
            | ':' :: r3 =>
              match jsCore fuel PMode.val r3 with
              | some vr =>
                let acc2 := acc ++ [(String.mk kr.1, vr.1)]
                match skipWs vr.2 with
                | ',' :: r5 => jsCore fuel (PMode.objRest acc2) r5
                | d :: r5 =>
                  if d = '\x7d' then some (Json.obj acc2, r5) else none
                | [] => none
              | none => none
            | _ => none
          | none => none
        else none
      | [] => none
    | PMode.arrRest acc =>
      match jsCore fuel PMode.val cs with
      | some vr =>
        match skipWs vr.2 with
        | ',' :: r3 => jsCore fuel (PMode.arrRest (acc ++ [vr.1])) r3
        | ']' :: r3 => some (Json.arr (acc ++ [vr.1]), r3)
        | _ => none
      | none => none

/-- Python `json.loads` on a string: a single JSON value surrounded by
optional whitespace; anything else raises `JSONDecodeError`, modelled as
`Except.error` carrying the message fragment Python would report. -/
def json_loads (s : String) : Except String Json :=
  match jsCore (2 * s.data.length + 4) PMode.val s.data with
  | some vr =>
    if skipWs vr.2 = [] then Except.ok vr.1
    else Except.error "Extra data"
  | none => Except.error "Expecting value"

/-! ### The data model and the client

`AIEvalResult` mirrors the dataclass in `ai_client.py`.  The dataclass
annotates `key_fix` and `memory_tip` as `str`, but Python does not enforce
annotations and `_parse_response` can store arbitrary decoded JSON values
in them (via `data.get(...) or default`), so they are embedded as `Json`.
`raw_response` can likewise receive a non-string value when the envelope
field `text` holds one, so it is embedded as `Json` as well. -/

structure AIEvalResult where
  verdict : String
  suggested_rating : String
  key_fix : Json
  memory_tip : Json
  raw_response : Json

/-- Outcome of the single blocking `urllib.request.urlopen` call (plus
reading and decoding the body to a string): either an exception carrying
its message, or the response body. -/
inductive NetOutcome where
  | fail (errMsg : String) : NetOutcome
  | success (body : String) : NetOutcome

namespace AIClient

/-- `self.api_key = api_key or os.environ.get("GEMINI_API_KEY")` in
`AIClient.__init__`; the environment is passed explicitly. -/
def init (api_key : Option String) (env_GEMINI_API_KEY : Option String) :
    Option String :=
  if pyTruthyOptStr api_key then api_key else env_GEMINI_API_KEY

/-- Lines 90-104: the user message, with the cloze note appended when
`is_cloze` is set. -/
def build_user_message (question correct_answer user_answer : String)
    (is_cloze : Bool) : String :=
  let m := "FLASHCARD_QUESTION: " ++ question ++ "\nCORRECT_ANSWER: " ++
    correct_answer ++ "\nUSER_ANSWER: " ++ user_answer
  if is_cloze then
    m ++ "\n[SYSTEM NOTE: This is a CLOZE (fill-in-the-blank) card. " ++
      "The \x27USER_ANSWER\x27 generally contains ONLY the missing text, " ++
      "while \x27CORRECT_ANSWER\x27 contains the full completed sentence. " ++
      "Grade \x27Correct\x27 if the user\x27s input accurately fills the gap in the QUESTION.]"
  else m

/-- Lines 155-160: `verdict_map.get(verdict, verdict)`.  Python hashes the
key before looking it up, so an unhashable value (a decoded JSON array or
object) raises `TypeError: unhashable type: ...`, which line 203 catches;
the dict has three string keys, so only string values can be remapped and
every other hashable value passes through unchanged. -/
def verdict_map_get (v : Json) : Except String Json :=
  match v with
  | Json.arr _ => Except.error "unhashable type: \x27list\x27"
  | Json.obj _ => Except.error "unhashable type: \x27dict\x27"
  | Json.str s =>
    Except.ok
      (if s = "pass" then Json.str "Correct"
       else if s = "borderline" then Json.str "Partially Correct"
       else if s = "fail" then Json.str "Incorrect"
       else Json.str s)
  | other => Except.ok other

/-- Lines 161-162: `if verdict not in {"Correct", "Partially Correct",
"Incorrect"}: verdict = "Partially Correct"` (the value here is already
hashable, having survived `verdict_map.get`). -/
def verdictEnumCheck (v : Json) : String :=
  match v with
  | Json.str s =>
    if s = "Correct" ∨ s = "Partially Correct" ∨ s = "Incorrect" then s
    else "Partially Correct"
  | _ => "Partially Correct"

/-- Lines 154-162: the verdict coercion applied to the value of
`data.get("verdict", "Partially Correct")`; propagates the `TypeError`
raised on an unhashable verdict. -/
def normalizeVerdict (v : Json) : Except String String :=
  match verdict_map_get v with
  | Except.error e => Except.error e
  | Except.ok v2 => Except.ok (verdictEnumCheck v2)

/-- Line 165: `rating_map = {1: "Again", 2: "Hard", 3: "Good", 4: "Easy"}`,
as a lookup. -/
def rating_map_get (n : Int) : Option String :=
  if n = 1 then some "Again"
  else if n = 2 then some "Hard"
  else if n = 3 then some "Good"
  else if n = 4 then some "Easy"
  else none

/-- Lines 164-177: the rating coercion applied to the value of
`data.get("suggested_rating", 3)`.  Branch order matches the source:
`isinstance(x, str)` first, then `isinstance(x, int)` — which in Python is
also true of `bool` (a subclass of `int`, with `True == 1`, `False == 0`
for the dict lookup); everything else falls to `"Good"`. -/
def ratingLabel (r : Json) : String :=
  match r with
  | Json.str s =>
    if s = "Again" ∨ s = "Hard" ∨ s = "Good" ∨ s = "Easy" then s
    else
      match pyIntOfString s with
      | some n => (rating_map_get n).getD "Good"
      | none => "Good"
  | Json.int n => (rating_map_get n).getD "Good"
  | Json.bool b => (rating_map_get (if b then 1 else 0)).getD "Good"
  | _ => "Good"

/-- Lines 179-185, fallback branch: `data.get("key_fix") or "No key fix
provided."` and the analogous `memory_tip` line.  A missing key yields
Python `None` (falsy), modelled by `Json.null`. -/
def feedbackFallback (kvs : List (String × Json)) : Json × Json :=
  ( pyOrJson ((pyDictGet kvs "key_fix").getD Json.null)
      (Json.str "No key fix provided.")
  , pyOrJson ((pyDictGet kvs "memory_tip").getD Json.null)
      (Json.str "No memory tip provided.") )

/-- Lines 179-185: prefer a non-empty consolidated string `feedback` field
(stored stripped, with an empty `memory_tip`), otherwise fall back to
`key_fix` / `memory_tip`. -/
def feedbackFields (kvs : List (String × Json)) : Json × Json :=
  match pyDictGet kvs "feedback" with
  | some (Json.str fs) =>
    if pyStrip fs ≠ "" then (Json.str (pyStrip fs), Json.str "")
    else feedbackFallback kvs
  | _ => feedbackFallback kvs

/-- Lines 203-210: the second fail-safe handler of `_parse_response`
(`except Exception`), built from `str(e)`: it receives the
`AttributeError` of `data.get` on a non-dict and the `TypeError` of
`verdict_map.get` on an unhashable verdict. -/
def format_error_result (errMsg raw_text : String) : AIEvalResult :=
  { verdict := "fail"
  , suggested_rating := "Again"
  , key_fix := Json.str ("AI response format error: " ++ errMsg)
  , memory_tip := Json.str "Try again or simplify your answer for clarity."
  , raw_response := Json.str raw_text }

/-- Lines 154-193: the body of `_parse_response` on a successfully decoded
JSON object.  An unhashable verdict raises at line 160, before the rating
and feedback are read, and lands in the `except Exception` handler. -/
def normalizeObj (kvs : List (String × Json)) (raw_text : String) :
    AIEvalResult :=
  match normalizeVerdict ((pyDictGet kvs "verdict").getD
      (Json.str "Partially Correct")) with
  | Except.error e => format_error_result e raw_text
  | Except.ok verdict =>
    { verdict := verdict
    , suggested_rating := ratingLabel ((pyDictGet kvs "suggested_rating").getD
        (Json.int 3))
    , key_fix := (feedbackFields kvs).1
    , memory_tip := (feedbackFields kvs).2
    , raw_response := Json.str raw_text }

/-- `str(e)` of the `AttributeError` raised by `data.get(...)` when
`json.loads` produced a non-dict value. -/
def pyAttrErrMsg (data : Json) : String :=
  "\x27" ++ pyTypeName data ++ "\x27 object has no attribute \x27get\x27"

/-- Lines 151-210: `AIClient._parse_response`.  The three match arms are,
in order: the normal path on a decoded object; any other decoded value,
whose `data.get("verdict", ...)` raises `AttributeError`, caught by the
second handler (line 203, `except Exception`); and a decode failure,
caught by the first handler (line 194, `except json.JSONDecodeError`).
The `context` argument is unused, as in the source. -/
def parse_response (raw_text : String) (context : String) : AIEvalResult :=
  match json_loads raw_text with
  | Except.ok (Json.obj kvs) => normalizeObj kvs raw_text
  | Except.ok other => format_error_result (pyAttrErrMsg other) raw_text
  | Except.error _ =>
    { verdict := "fail"
    , suggested_rating := "Again"
    , key_fix := Json.str "Could not parse AI response."
    , memory_tip := Json.str "Try again or simplify your answer for clarity."
    , raw_response := Json.str raw_text }

/-- Called with a non-string `text` envelope field: `json.loads(raw_text)`
raises `TypeError` inside `_parse_response`, caught by the second handler
(line 203), so the fail-safe carries the non-string value in
`raw_response`. -/
def parse_response_nonstr (raw_text : Json) : AIEvalResult :=
  { verdict := "fail"
  , suggested_rating := "Again"
  , key_fix := Json.str ("AI response format error: the JSON object must be str, bytes or bytearray, not " ++ pyTypeName raw_text)
  , memory_tip := Json.str "Try again or simplify your answer for clarity."
  , raw_response := raw_text }

/-- Lines 81-88: the fail-safe returned when `self.api_key` is falsy. -/
def missing_key_result : AIEvalResult :=
  { verdict := "Incorrect"
  , suggested_rating := "Again"
  , key_fix := Json.str "Missing GEMINI_API_KEY environment variable. Set it in your shell or .env file."
  , memory_tip := Json.str "Add GEMINI_API_KEY to your environment and retry."
  , raw_response := Json.str "" }

/-- Lines 141-149: the catch-all fail-safe (flow B) built from `str(e)`. -/
def ai_failure_result (errMsg : String) : AIEvalResult :=
  { verdict := "Incorrect"
  , suggested_rating := "Again"
  , key_fix := Json.str ("AI Error: " ++ errMsg)
  , memory_tip := Json.str "Retry in a moment or check your connection."
  , raw_response := Json.str "" }

/-- `d[k]` subscripting during envelope extraction; any failure
(`KeyError` on a dict, `TypeError` on other values) is collapsed to
`none`, since line 137 catches `(KeyError, IndexError, TypeError)`
uniformly and the original exception is replaced by a fixed `ValueError`. -/
def pySubscriptKey (j : Json) (k : String) : Option Json :=
  match j with
  | Json.obj kvs => pyDictGet kvs k
  | _ => none

/-- `x[0]` subscripting during envelope extraction; on a string Python
yields its first character (itself a `str`), on a list its head. -/
def pySubscriptZero (j : Json) : Option Json :=
  match j with
  | Json.arr xs =>
    match xs with
    | [] => none
    | x :: _ => some x
  | Json.str s =>
    match s.data with
    | [] => none
    | c :: _ => some (Json.str (String.mk [c]))
  | _ => none

/-- Line 136: `result["candidates"][0]["content"]["parts"][0]["text"]`. -/
def extract_content (envelope : Json) : Option Json :=
  match pySubscriptKey envelope "candidates" with
  | none => none
  | some c =>
    match pySubscriptZero c with
    | none => none
    | some c0 =>
      match pySubscriptKey c0 "content" with
      | none => none
      | some ct =>
        match pySubscriptKey ct "parts" with
        | none => none
        | some p =>
          match pySubscriptZero p with
          | none => none
          | some p0 => pySubscriptKey p0 "text"

/-- Lines 74-149: `AIClient.generate_response`.  The network call is the
oracle `net`; the request payload (system instruction plus user message)
does not influence the result and is abstracted away, except for the user
message, which is passed to `_parse_response` as its unused `context`
argument.  A transport exception, a body that fails to decode, and a
missing envelope field all reach the catch-all handler of line 141 with
their respective `str(e)` messages, discarding the body. -/
def generate_response (self_api_key : Option String)
    (question correct_answer user_answer : String) (is_cloze : Bool)
    (net : NetOutcome) : AIEvalResult :=
  if pyTruthyOptStr self_api_key = false then missing_key_result
  else
    let user_message := build_user_message question correct_answer
      user_answer is_cloze
    match net with
    | NetOutcome.fail errMsg => ai_failure_result errMsg
    | NetOutcome.success body =>
      match json_loads body with
      | Except.error errMsg => ai_failure_result errMsg
      | Except.ok envelope =>
        match extract_content envelope with
        | none => ai_failure_result "Gemini response missing expected fields."
        | some (Json.str content) => parse_response content user_message
        | some other => parse_response_nonstr other

/-- Lines 69-72: `AIClient.evaluate_card` forwards to `generate_response`
without passing `card_mode`, so `is_cloze` keeps its default `False`. -/
def evaluate_card (self_api_key : Option String)
    (front back user_answer : String) (card_mode : String)
    (net : NetOutcome) : AIEvalResult :=
  generate_response self_api_key front back user_answer false net

end AIClient

namespace OllamaClient

/-- `class OllamaClient(AIClient): pass` (lines 213-214): every method,
the credential check and the remote endpoint included, is inherited from
`AIClient` unchanged. -/
def generate_response := @AIClient.generate_response

/-- Inherited `evaluate_card`, unchanged. -/
def evaluate_card := @AIClient.evaluate_card

end OllamaClient

/-- Substring test for the Python `in` operator on strings. -/
def strContainsSub (haystack needle : String) : Bool :=
  (haystack.data.tails).any (fun t => needle.data.isPrefixOf t)

namespace AIReviewOrchestrator

/-- `orchestrator.py` lines 8-16: `AIReviewOrchestrator.evaluate`.  The
card is abstracted to its question text, answer text and note-model
`type` value; `self.client` is `OllamaClient()` constructed with no
explicit key, so its key is `AIClient.init none env`. -/
def evaluate (env_GEMINI_API_KEY : Option String)
    (card_q card_a : String) (card_model_type : Option Int)
    (user_answer : String) (net : NetOutcome) : AIEvalResult :=
  let is_cloze := card_model_type = some 1 || strContainsSub card_q "[...]"
  let card_mode := if is_cloze then "cloze" else "basic"
  OllamaClient.evaluate_card (AIClient.init none env_GEMINI_API_KEY)
    card_q card_a user_answer card_mode net

end AIReviewOrchestrator

/-! ### General lemmas about the normalizer -/

/-- Both branches of `normalizeObj` store the raw input in
`raw_response`. -/
theorem normalizeObj_raw (kvs : List (String × Json)) (raw : String) :
    (AIClient.normalizeObj kvs raw).raw_response = Json.str raw := by
  unfold AIClient.normalizeObj
  cases AIClient.normalizeVerdict ((pyDictGet kvs "verdict").getD
      (Json.str "Partially Correct")) with
  | error e => rfl
  | ok verdict => rfl

/-- Every path of `_parse_response` stores the raw input in
`raw_response`. -/
theorem parse_response_raw (s context : String) :
    (AIClient.parse_response s context).raw_response = Json.str s := by
  unfold AIClient.parse_response
  cases json_loads s with
  | error e => rfl
  | ok v =>
    cases v with
    | obj kvs => exact normalizeObj_raw kvs s
    | null => rfl
    | bool b => rfl
    | int n => rfl
    | float l => rfl
    | str s2 => rfl
    | arr xs => rfl

/-- The string arm of the verdict coercion stays within the three
canonical strings. -/
theorem ifVerdict_mem (s : String) :
    (if s = "Correct" ∨ s = "Partially Correct" ∨ s = "Incorrect" then s
     else "Partially Correct") = "Correct" ∨
    (if s = "Correct" ∨ s = "Partially Correct" ∨ s = "Incorrect" then s
     else "Partially Correct") = "Partially Correct" ∨
    (if s = "Correct" ∨ s = "Partially Correct" ∨ s = "Incorrect" then s
     else "Partially Correct") = "Incorrect" := by
  by_cases hs : s = "Correct" ∨ s = "Partially Correct" ∨ s = "Incorrect"
  · rw [if_pos hs]
    exact hs
  · rw [if_neg hs]
    simp

/-- The enum check keeps every value inside the three canonical
strings. -/
theorem verdictEnumCheck_mem (v : Json) :
    AIClient.verdictEnumCheck v = "Correct" ∨
    AIClient.verdictEnumCheck v = "Partially Correct" ∨
    AIClient.verdictEnumCheck v = "Incorrect" := by
  unfold AIClient.verdictEnumCheck
  cases v with
  | str s => exact ifVerdict_mem s
  | null => simp
  | bool b => simp
  | int n => simp
  | float l => simp
  | arr xs => simp
  | obj kvs => simp

/-- When the verdict coercion does not raise (the verdict was hashable),
its result is one of the three canonical strings. -/
theorem normalizeVerdict_ok_mem (v : Json) (s : String)
    (h : AIClient.normalizeVerdict v = Except.ok s) :
    s = "Correct" ∨ s = "Partially Correct" ∨ s = "Incorrect" := by
  unfold AIClient.normalizeVerdict at h
  cases hm : AIClient.verdict_map_get v with
  | error e =>
    rw [hm] at h
    exact absurd h (by simp)
  | ok v2 =>
    rw [hm] at h
    simp only [Except.ok.injEq] at h
    rw [← h]
    exact verdictEnumCheck_mem v2

/-- `rating_map.get(n, "Good")` always yields one of the four labels. -/
theorem rating_map_getD_mem (n : Int) :
    (AIClient.rating_map_get n).getD "Good" = "Again" ∨
    (AIClient.rating_map_get n).getD "Good" = "Hard" ∨
    (AIClient.rating_map_get n).getD "Good" = "Good" ∨
    (AIClient.rating_map_get n).getD "Good" = "Easy" := by
  unfold AIClient.rating_map_get
  by_cases h1 : n = 1 <;> by_cases h2 : n = 2 <;> by_cases h3 : n = 3 <;>
    by_cases h4 : n = 4 <;> simp [h1, h2, h3, h4]

/-- The string arm of the rating coercion stays within the four labels. -/
theorem ifRating_mem (s : String) :
    (if s = "Again" ∨ s = "Hard" ∨ s = "Good" ∨ s = "Easy" then s
     else match pyIntOfString s with
          | some n => (AIClient.rating_map_get n).getD "Good"
          | none => "Good") = "Again" ∨
    (if s = "Again" ∨ s = "Hard" ∨ s = "Good" ∨ s = "Easy" then s
     else match pyIntOfString s with
          | some n => (AIClient.rating_map_get n).getD "Good"
          | none => "Good") = "Hard" ∨
    (if s = "Again" ∨ s = "Hard" ∨ s = "Good" ∨ s = "Easy" then s
     else match pyIntOfString s with
          | some n => (AIClient.rating_map_get n).getD "Good"
          | none => "Good") = "Good" ∨
    (if s = "Again" ∨ s = "Hard" ∨ s = "Good" ∨ s = "Easy" then s
     else match pyIntOfString s with
          | some n => (AIClient.rating_map_get n).getD "Good"
          | none => "Good") = "Easy" := by
  by_cases hs : s = "Again" ∨ s = "Hard" ∨ s = "Good" ∨ s = "Easy"
  · rw [if_pos hs]
    exact hs
  · rw [if_neg hs]
    cases hpi : pyIntOfString s with
    | some n => exact rating_map_getD_mem n
    | none => simp

/-- The coerced rating of the success path is always one of the four
labels. -/
theorem ratingLabel_mem (r : Json) :
    AIClient.ratingLabel r = "Again" ∨ AIClient.ratingLabel r = "Hard" ∨
    AIClient.ratingLabel r = "Good" ∨ AIClient.ratingLabel r = "Easy" := by
  unfold AIClient.ratingLabel
  cases r with
  | str s => exact ifRating_mem s
  | int n => exact rating_map_getD_mem n
  | bool b => cases b <;> [exact rating_map_getD_mem 0; exact rating_map_getD_mem 1]
  | null => simp
  | float l => simp
  | arr xs => simp
  | obj kvs => simp

/-- `x or y` with a non-null `y` never yields null, because null is
falsy. -/
theorem pyOrJson_ne_null (a b : Json) (hb : b ≠ Json.null) :
    pyOrJson a b ≠ Json.null := by
  unfold pyOrJson
  split
  · rename_i h
    intro hn
    rw [hn] at h
    simp [pyTruthy] at h
  · exact hb

/-- The fallback `key_fix` is never null. -/
theorem feedbackFallback_fst_ne_null (kvs : List (String × Json)) :
    (AIClient.feedbackFallback kvs).1 ≠ Json.null :=
  pyOrJson_ne_null _ _ (by simp)

/-- The fallback `memory_tip` is never null. -/
theorem feedbackFallback_snd_ne_null (kvs : List (String × Json)) :
    (AIClient.feedbackFallback kvs).2 ≠ Json.null :=
  pyOrJson_ne_null _ _ (by simp)

/-- The `key_fix` produced on the success path is never null. -/
theorem feedbackFields_fst_ne_null (kvs : List (String × Json)) :
    (AIClient.feedbackFields kvs).1 ≠ Json.null := by
  unfold AIClient.feedbackFields
  split
  · split <;> first | exact feedbackFallback_fst_ne_null kvs | simp
  · exact feedbackFallback_fst_ne_null kvs

/-- The `memory_tip` produced on the success path is never null. -/
theorem feedbackFields_snd_ne_null (kvs : List (String × Json)) :
    (AIClient.feedbackFields kvs).2 ≠ Json.null := by
  unfold AIClient.feedbackFields
  split
  · split <;> first | exact feedbackFallback_snd_ne_null kvs | simp
  · exact feedbackFallback_snd_ne_null kvs

/-- Both branches of `normalizeObj` populate every field: non-empty
verdict and rating strings and non-null feedback values. -/
theorem normalizeObj_populated (kvs : List (String × Json)) (raw : String) :
    (AIClient.normalizeObj kvs raw).verdict ≠ "" ∧
    (AIClient.normalizeObj kvs raw).suggested_rating ≠ "" ∧
    (AIClient.normalizeObj kvs raw).key_fix ≠ Json.null ∧
    (AIClient.normalizeObj kvs raw).memory_tip ≠ Json.null := by
  unfold AIClient.normalizeObj
  cases hv : AIClient.normalizeVerdict ((pyDictGet kvs "verdict").getD
      (Json.str "Partially Correct")) with
  | error e =>
    exact ⟨by simp [AIClient.format_error_result],
      by simp [AIClient.format_error_result],
      by simp [AIClient.format_error_result],
      by simp [AIClient.format_error_result]⟩
  | ok verdict =>
    refine ⟨?_, ?_, feedbackFields_fst_ne_null kvs,
      feedbackFields_snd_ne_null kvs⟩
    · rcases normalizeVerdict_ok_mem _ _ hv with h | h | h <;> rw [h] <;>
        simp
    · rcases ratingLabel_mem ((pyDictGet kvs "suggested_rating").getD
        (Json.int 3)) with h | h | h | h <;> rw [h] <;> simp

/-! ### Claims -/

/-- C1: the claim states that `verdict` is always one of Correct /
Partially Correct / Incorrect.  The code violates it: the fail-safe of
`_parse_response` for undecodable input returns the legacy token
`"fail"`, which the very same function maps to `"Incorrect"` when it
arrives as a parsed value, and which the fail-safes of
`generate_response` spell `"Incorrect"`.  Evaluation at the failing
input `"not json"`. -/
theorem c1_failsafe_verdict_outside_enumeration :
    (AIClient.parse_response "not json" "").verdict = "fail" ∧
    ("fail" : String) ≠ "Correct" ∧
    ("fail" : String) ≠ "Partially Correct" ∧
    ("fail" : String) ≠ "Incorrect" :=
  ⟨rfl, by decide, by decide, by decide⟩

/-- C2: the claim states that parsing a non-JSON reply yields
`verdict = "Incorrect"`.  The code returns the full fixed fail-safe with
`verdict = "fail"` instead; rating, feedback message and `raw_response`
are as claimed.  Evaluation at the failing input `"not json"`. -/
theorem c2_malformed_input_failsafe :
    AIClient.parse_response "not json" "" =
      { verdict := "fail"
      , suggested_rating := "Again"
      , key_fix := Json.str "Could not parse AI response."
      , memory_tip := Json.str "Try again or simplify your answer for clarity."
      , raw_response := Json.str "not json" } := rfl

/-- C3 counterexample: with a credential present and a reply body `"{}"`
(valid JSON, but lacking the `candidates` envelope), reply text was
received yet `raw_response` of the result is the empty string — so the
claim that envelope-extraction failure preserves the reply text is
false. -/
theorem c3_counterexample_extraction_failure_discards_reply :
    (AIClient.generate_response (some "k") "q" "a" "u" false
      (NetOutcome.success "\x7b\x7d")).raw_response = Json.str "" ∧
    ("\x7b\x7d" : String) ≠ "" :=
  ⟨rfl, by decide⟩

/-- C3 amended: with a credential present, `raw_response` echoes the
extracted envelope text exactly when the envelope extraction succeeded
(in particular it survives any later parse failure of that text); it is
the empty string on transport failure, an undecodable body, or a missing
envelope field. -/
theorem c3_raw_response_characterization (k : String) (hk : k ≠ "")
    (q a u : String) (c : Bool) (net : NetOutcome) :
    (AIClient.generate_response (some k) q a u c net).raw_response =
      (match net with
       | NetOutcome.fail _ => Json.str ""
       | NetOutcome.success body =>
         match json_loads body with
         | Except.error _ => Json.str ""
         | Except.ok envelope =>
           match AIClient.extract_content envelope with
           | none => Json.str ""
           | some content => content) := by
  unfold AIClient.generate_response
  have hts : pyTruthyOptStr (some k) = true := by
    simp [pyTruthyOptStr, hk]
  rw [hts]
  simp only [Bool.true_eq_false, if_false]
  cases net with
  | fail e => rfl
  | success body =>
    dsimp only
    cases hjl : json_loads body with
    | error e => rfl
    | ok envelope =>
      dsimp only
      cases hec : AIClient.extract_content envelope with
      | none => rfl
      | some content =>
        dsimp only
        cases content with
        | str s => exact parse_response_raw s _
        | null => rfl
        | bool b => rfl
        | int n => rfl
        | float l => rfl
        | arr xs => rfl
        | obj kvs => rfl

/-- C3 witness: instantiation of the characterization at a concrete
credential and an undecodable reply body. -/
theorem c3_raw_response_characterization_witness :
    ("k" : String) ≠ "" ∧
    (AIClient.generate_response (some "k") "q" "a" "u" false
      (NetOutcome.success "nj")).raw_response = Json.str "" :=
  ⟨by decide, c3_raw_response_characterization "k" (by decide) "q" "a" "u"
    false (NetOutcome.success "nj")⟩

/-- C4: the claim states the local-service variant needs no credential
and posts the Ollama request shape to a local endpoint.  In the code
`OllamaClient` is `class OllamaClient(AIClient): pass`: it inherits the
remote client unchanged, so with no credential configured and no
environment variable set it returns the missing-credential fail-safe
naming GEMINI_API_KEY, exactly like the remote variant. -/
theorem c4_ollama_inherits_credential_requirement
    (q a u mode : String) (net : NetOutcome) :
    OllamaClient.evaluate_card (AIClient.init none none) q a u mode net =
      AIClient.missing_key_result ∧
    AIClient.missing_key_result.key_fix =
      Json.str "Missing GEMINI_API_KEY environment variable. Set it in your shell or .env file." :=
  ⟨rfl, rfl⟩

/-- C5: for every input string (and unused context argument), the
normalizer returns a fully populated result — non-empty verdict and
rating strings, non-null feedback fields, and the input echoed in
`raw_response` — and, the embedding being a total function whose every
partial Python operation (decode, attribute access) is modelled and
handled, it raises no unhandled exception. -/
theorem c5_parse_response_total_and_populated (s context : String) :
    (AIClient.parse_response s context).verdict ≠ "" ∧
    (AIClient.parse_response s context).suggested_rating ≠ "" ∧
    (AIClient.parse_response s context).key_fix ≠ Json.null ∧
    (AIClient.parse_response s context).memory_tip ≠ Json.null ∧
    (AIClient.parse_response s context).raw_response = Json.str s := by
  unfold AIClient.parse_response
  cases hj : json_loads s with
  | error e => exact ⟨by simp, by simp, by simp, by simp, rfl⟩
  | ok v =>
    cases v with
    | obj kvs =>
      obtain ⟨h1, h2, h3, h4⟩ := normalizeObj_populated kvs s
      exact ⟨h1, h2, h3, h4, normalizeObj_raw kvs s⟩
    | null => exact ⟨by simp [AIClient.format_error_result],
        by simp [AIClient.format_error_result],
        by simp [AIClient.format_error_result],
        by simp [AIClient.format_error_result], rfl⟩
    | bool b => exact ⟨by simp [AIClient.format_error_result],
        by simp [AIClient.format_error_result],
        by simp [AIClient.format_error_result],
        by simp [AIClient.format_error_result], rfl⟩
    | int n => exact ⟨by simp [AIClient.format_error_result],
        by simp [AIClient.format_error_result],
        by simp [AIClient.format_error_result],
        by simp [AIClient.format_error_result], rfl⟩
    | float l => exact ⟨by simp [AIClient.format_error_result],
        by simp [AIClient.format_error_result],
        by simp [AIClient.format_error_result],
        by simp [AIClient.format_error_result], rfl⟩
    | str s2 => exact ⟨by simp [AIClient.format_error_result],
        by simp [AIClient.format_error_result],
        by simp [AIClient.format_error_result],
        by simp [AIClient.format_error_result], rfl⟩
    | arr xs => exact ⟨by simp [AIClient.format_error_result],
        by simp [AIClient.format_error_result],
        by simp [AIClient.format_error_result],
        by simp [AIClient.format_error_result], rfl⟩

/-- C6: with no credential configured and no environment variable set,
the pipeline returns the fixed missing-credential fail-safe, the result
does not depend on the network oracle (no request is consulted), the
message names the missing configuration and `raw_response` is empty. -/
theorem c6_missing_credential_short_circuit
    (question correct_answer user_answer : String) (is_cloze : Bool)
    (net net2 : NetOutcome) :
    AIClient.generate_response (AIClient.init none none) question
      correct_answer user_answer is_cloze net = AIClient.missing_key_result ∧
    AIClient.generate_response (AIClient.init none none) question
      correct_answer user_answer is_cloze net =
      AIClient.generate_response (AIClient.init none none) question
        correct_answer user_answer is_cloze net2 ∧
    AIClient.missing_key_result.verdict = "Incorrect" ∧
    AIClient.missing_key_result.suggested_rating = "Again" ∧
    AIClient.missing_key_result.key_fix =
      Json.str "Missing GEMINI_API_KEY environment variable. Set it in your shell or .env file." ∧
    AIClient.missing_key_result.raw_response = Json.str "" :=
  ⟨rfl, rfl, rfl, rfl, rfl, rfl⟩

/-- C7: the legacy verdict vocabulary maps onto the newer one, numeric
rating codes 1-4 map to the four labels both as integers and as numeric
strings, and the two concrete examples of the claim evaluate as
stated. -/
theorem c7_vocabulary_and_numeric_mapping :
    AIClient.normalizeVerdict (Json.str "pass") = Except.ok "Correct" ∧
    AIClient.normalizeVerdict (Json.str "borderline") =
      Except.ok "Partially Correct" ∧
    AIClient.normalizeVerdict (Json.str "fail") = Except.ok "Incorrect" ∧
    AIClient.ratingLabel (Json.int 1) = "Again" ∧
    AIClient.ratingLabel (Json.int 2) = "Hard" ∧
    AIClient.ratingLabel (Json.int 3) = "Good" ∧
    AIClient.ratingLabel (Json.int 4) = "Easy" ∧
    AIClient.ratingLabel (Json.str "1") = "Again" ∧
    AIClient.ratingLabel (Json.str "2") = "Hard" ∧
    AIClient.ratingLabel (Json.str "3") = "Good" ∧
    AIClient.ratingLabel (Json.str "4") = "Easy" ∧
    AIClient.parse_response "\x7b\"verdict\":\"pass\",\"suggested_rating\":4\x7d" "" =
      { verdict := "Correct"
      , suggested_rating := "Easy"
      , key_fix := Json.str "No key fix provided."
      , memory_tip := Json.str "No memory tip provided."
      , raw_response := Json.str "\x7b\"verdict\":\"pass\",\"suggested_rating\":4\x7d" } ∧
    AIClient.parse_response "\x7b\"verdict\":\"fail\",\"suggested_rating\":\"1\"\x7d" "" =
      { verdict := "Incorrect"
      , suggested_rating := "Again"
      , key_fix := Json.str "No key fix provided."
      , memory_tip := Json.str "No memory tip provided."
      , raw_response := Json.str "\x7b\"verdict\":\"fail\",\"suggested_rating\":\"1\"\x7d" } :=
  ⟨rfl, rfl, rfl, rfl, rfl, rfl, rfl, rfl, rfl, rfl, rfl, rfl, rfl⟩

/-- C8 counterexample: the claim states a `suggested_rating` of a wrong
type coerces to Good and never to Again; but a JSON boolean passes the
`isinstance(x, int)` check (Python `bool` is a subclass of `int`) and
`true` equals `1` as a dict key, so it coerces to "Again". -/
theorem c8_counterexample_bool_rating_again :
    (AIClient.parse_response
      "\x7b\"verdict\":\"maybe\",\"suggested_rating\":true\x7d" ""
      ).suggested_rating = "Again" ∧
    ("Again" : String) ≠ "Good" :=
  ⟨rfl, by decide⟩

/-- C8 amended: for a decoded JSON object, an unrecognized or missing
verdict value of hashable type coerces to Partially Correct, while an
unhashable verdict (a JSON array or object) raises TypeError in
`verdict_map.get` and aborts to the format-error fail-safe (verdict
"fail"); a rating outside 1-4, a string that is neither a label nor a
Python-numeric string, or a value of wrong type other than a boolean
coerces to Good; a boolean rating is treated as the integer 0 or 1
(Python bool is a subclass of int), so `false` coerces to Good but
`true` coerces to Again; the concrete example of the claim evaluates as
stated. -/
theorem c8_amended_neutral_defaults :
    (∀ s : String, ¬ (s = "Correct" ∨ s = "Partially Correct" ∨
        s = "Incorrect" ∨ s = "pass" ∨ s = "borderline" ∨ s = "fail") →
      AIClient.normalizeVerdict (Json.str s) =
        Except.ok "Partially Correct") ∧
    (∀ n : Int, ¬ (n = 1 ∨ n = 2 ∨ n = 3 ∨ n = 4) →
      AIClient.ratingLabel (Json.int n) = "Good") ∧
    (∀ s : String, ¬ (s = "Again" ∨ s = "Hard" ∨ s = "Good" ∨ s = "Easy") →
      pyIntOfString s = none → AIClient.ratingLabel (Json.str s) = "Good") ∧
    (∀ (s : String) (n : Int),
      ¬ (s = "Again" ∨ s = "Hard" ∨ s = "Good" ∨ s = "Easy") →
      pyIntOfString s = some n → ¬ (n = 1 ∨ n = 2 ∨ n = 3 ∨ n = 4) →
      AIClient.ratingLabel (Json.str s) = "Good") ∧
    (∀ (kvs : List (String × Json)) (raw : String),
      pyDictGet kvs "verdict" = none →
      (AIClient.normalizeObj kvs raw).verdict = "Partially Correct") ∧
    (∀ (kvs : List (String × Json)) (raw : String) (xs : List Json),
      pyDictGet kvs "verdict" = some (Json.arr xs) →
      AIClient.normalizeObj kvs raw =
        AIClient.format_error_result "unhashable type: \x27list\x27" raw) ∧
    (∀ (kvs : List (String × Json)) (raw : String)
        (kvs2 : List (String × Json)),
      pyDictGet kvs "verdict" = some (Json.obj kvs2) →
      AIClient.normalizeObj kvs raw =
        AIClient.format_error_result "unhashable type: \x27dict\x27" raw) ∧
    AIClient.normalizeVerdict Json.null = Except.ok "Partially Correct" ∧
    (∀ b, AIClient.normalizeVerdict (Json.bool b) =
      Except.ok "Partially Correct") ∧
    (∀ n : Int, AIClient.normalizeVerdict (Json.int n) =
      Except.ok "Partially Correct") ∧
    (∀ l, AIClient.normalizeVerdict (Json.float l) =
      Except.ok "Partially Correct") ∧
    (∀ xs, AIClient.normalizeVerdict (Json.arr xs) =
      Except.error "unhashable type: \x27list\x27") ∧
    (∀ kvs, AIClient.normalizeVerdict (Json.obj kvs) =
      Except.error "unhashable type: \x27dict\x27") ∧
    AIClient.ratingLabel Json.null = "Good" ∧
    (∀ l, AIClient.ratingLabel (Json.float l) = "Good") ∧
    (∀ xs, AIClient.ratingLabel (Json.arr xs) = "Good") ∧
    (∀ kvs, AIClient.ratingLabel (Json.obj kvs) = "Good") ∧
    AIClient.ratingLabel (Json.bool false) = "Good" ∧
    AIClient.ratingLabel (Json.bool true) = "Again" ∧
    AIClient.parse_response
      "\x7b\"verdict\":\"maybe\",\"suggested_rating\":99\x7d" "" =
      { verdict := "Partially Correct"
      , suggested_rating := "Good"
      , key_fix := Json.str "No key fix provided."
      , memory_tip := Json.str "No memory tip provided."
      , raw_response :=
          Json.str "\x7b\"verdict\":\"maybe\",\"suggested_rating\":99\x7d" } := by
  refine ⟨?_, ?_, ?_, ?_, ?_, ?_, ?_, rfl, fun b => by cases b <;> rfl,
    fun n => rfl, fun l => rfl, fun xs => rfl, fun kvs => rfl, rfl,
    fun l => rfl, fun xs => rfl, fun kvs => rfl, rfl, rfl, rfl⟩
  · intro s h
    push_neg at h
    obtain ⟨h1, h2, h3, h4, h5, h6⟩ := h
    simp [AIClient.normalizeVerdict, AIClient.verdict_map_get,
      AIClient.verdictEnumCheck, h1, h2, h3, h4, h5, h6]
  · intro n h
    push_neg at h
    obtain ⟨h1, h2, h3, h4⟩ := h
    simp [AIClient.ratingLabel, AIClient.rating_map_get, h1, h2, h3, h4]
  · intro s h hpi
    push_neg at h
    obtain ⟨h1, h2, h3, h4⟩ := h
    simp [AIClient.ratingLabel, h1, h2, h3, h4, hpi]
  · intro s n h hpi hn
    push_neg at h
    push_neg at hn
    obtain ⟨h1, h2, h3, h4⟩ := h
    obtain ⟨hn1, hn2, hn3, hn4⟩ := hn
    simp [AIClient.ratingLabel, AIClient.rating_map_get, h1, h2, h3, h4,
      hpi, hn1, hn2, hn3, hn4]
  · intro kvs raw h
    simp [AIClient.normalizeObj, h, AIClient.normalizeVerdict,
      AIClient.verdict_map_get, AIClient.verdictEnumCheck]
  · intro kvs raw xs h
    simp [AIClient.normalizeObj, h, AIClient.normalizeVerdict,
      AIClient.verdict_map_get]
  · intro kvs raw kvs2 h
    simp [AIClient.normalizeObj, h, AIClient.normalizeVerdict,
      AIClient.verdict_map_get]

/-- C8 witness: instantiations of the amended statement discharging each
of its hypotheses at concrete inputs. -/
theorem c8_amended_neutral_defaults_witness :
    (¬ (("maybe" : String) = "Correct" ∨ ("maybe" : String) = "Partially Correct" ∨
        ("maybe" : String) = "Incorrect" ∨ ("maybe" : String) = "pass" ∨
        ("maybe" : String) = "borderline" ∨ ("maybe" : String) = "fail") ∧
      AIClient.normalizeVerdict (Json.str "maybe") =
        Except.ok "Partially Correct") ∧
    (¬ ((99 : Int) = 1 ∨ (99 : Int) = 2 ∨ (99 : Int) = 3 ∨ (99 : Int) = 4) ∧
      AIClient.ratingLabel (Json.int 99) = "Good") ∧
    (¬ (("banana" : String) = "Again" ∨ ("banana" : String) = "Hard" ∨
        ("banana" : String) = "Good" ∨ ("banana" : String) = "Easy") ∧
      pyIntOfString "banana" = none ∧
      AIClient.ratingLabel (Json.str "banana") = "Good") ∧
    (¬ (("99" : String) = "Again" ∨ ("99" : String) = "Hard" ∨
        ("99" : String) = "Good" ∨ ("99" : String) = "Easy") ∧
      pyIntOfString "99" = some 99 ∧
      AIClient.ratingLabel (Json.str "99") = "Good") ∧
    (pyDictGet [] "verdict" = none ∧
      (AIClient.normalizeObj [] "").verdict = "Partially Correct") ∧
    (pyDictGet [("verdict", Json.arr [])] "verdict" = some (Json.arr []) ∧
      AIClient.normalizeObj [("verdict", Json.arr [])] "" =
        AIClient.format_error_result "unhashable type: \x27list\x27" "") ∧
    (pyDictGet [("verdict", Json.obj [])] "verdict" = some (Json.obj []) ∧
      AIClient.normalizeObj [("verdict", Json.obj [])] "" =
        AIClient.format_error_result "unhashable type: \x27dict\x27" "") := by
  have H := c8_amended_neutral_defaults
  refine ⟨⟨by decide, H.1 "maybe" (by decide)⟩,
    ⟨by decide, H.2.1 99 (by decide)⟩,
    ⟨by decide, by decide, H.2.2.1 "banana" (by decide) (by decide)⟩,
    ⟨by decide, by decide,
      H.2.2.2.1 "99" 99 (by decide) (by decide) (by decide)⟩,
    ⟨rfl, H.2.2.2.2.1 [] "" rfl⟩,
    ⟨rfl, H.2.2.2.2.2.1 [("verdict", Json.arr [])] "" [] rfl⟩,
    ⟨rfl, H.2.2.2.2.2.2.1 [("verdict", Json.obj [])] "" [] rfl⟩⟩

/-- C9: the claim states every result carries at least one non-empty
feedback string.  The code, however, substitutes the placeholders only
for falsy `key_fix` / `memory_tip` values; a truthy non-string value
(here the integers 1 and 2) passes `data.get(...) or default` unchanged
despite the dataclass annotating both fields as `str`, so this result
carries no string feedback at all.  Evaluation at the failing input. -/
theorem c9_feedback_without_any_string :
    (AIClient.parse_response "\x7b\"key_fix\":1,\"memory_tip\":2\x7d" ""
      ).key_fix = Json.int 1 ∧
    (AIClient.parse_response "\x7b\"key_fix\":1,\"memory_tip\":2\x7d" ""
      ).memory_tip = Json.int 2 ∧
    (AIClient.parse_response "\x7b\"key_fix\":1,\"memory_tip\":2\x7d" ""
      ).verdict = "Partially Correct" :=
  ⟨rfl, rfl, rfl⟩

/-- C10: `evaluate_card` discards `card_mode` and calls
`generate_response` with `is_cloze` left at its default `False`; the
orchestrator therefore reaches `generate_response` with `is_cloze =
False` for cloze cards too, and the `is_cloze = False` prompt carries no
cloze-handling note — it is exactly the three-field base message. -/
theorem c10_card_mode_discarded :
    (∀ (key : Option String) (q a u mode : String) (net : NetOutcome),
      AIClient.evaluate_card key q a u mode net =
        AIClient.generate_response key q a u false net) ∧
    (∀ (env : Option String) (q a : String) (mt : Option Int) (u : String)
        (net : NetOutcome),
      AIReviewOrchestrator.evaluate env q a mt u net =
        AIClient.generate_response (AIClient.init none env) q a u false net) ∧
    (∀ q a u : String,
      AIClient.build_user_message q a u false =
        "FLASHCARD_QUESTION: " ++ q ++ "\nCORRECT_ANSWER: " ++ a ++
          "\nUSER_ANSWER: " ++ u) :=
  ⟨fun _ _ _ _ _ _ => rfl, fun _ _ _ _ _ _ => rfl, fun _ _ _ => rfl⟩
